import Mathlib

/-!
# Extractor/BaseParser.cpp: reading `use_route_relations` from the Lua profile

A shallow embedding of `BaseParser::BaseParser` and
`BaseParser::ReadUseRouteRelationSetting`, followed by the properties proved
about them.

The Lua interpreter is an external library.  Its C API is embedded following
the Lua reference manual; what a chunk computes is left to a parameter
(`LuaEngine`), so every theorem holds for any interpreter behaviour.
-/

namespace OSRM

/-! ## Lua values and the interpreter state -/

/-- A Lua value, one constructor per basic type of the language.  A number is
identified by the text `lua_tostring` renders for it (its floating-point value
is not modelled); reference types carry an identity only. -/
inductive LuaValue where
  | nil
  | boolean (b : Bool)
  | lightuserdata (ref : Nat)
  | number (formatted : String)
  | string (s : String)
  | table (ref : Nat)
  | function (ref : Nat)
  | userdata (ref : Nat)
  | thread (ref : Nat)
  deriving DecidableEq, Repr

/-- One interpreter instance (`lua_State`).  `interp` is everything the
interpreter owns apart from the C API stack (globals, metatables, registry);
`stack` is the C API stack with the top element first; `chunks` is a ghost
trace of the source texts handed to the interpreter, oldest first. -/
structure lua_State (G : Type) where
  interp : G
  stack : List LuaValue
  chunks : List String

/-- What running a chunk does, left open: given the source text and the
interpreter state it yields the status, the single value left for the caller
and the interpreter state afterwards.  The chunk run here is
`return <variable>`, which yields exactly one value on success; a failed load
or call leaves exactly one error object instead. -/
structure LuaEngine (G : Type) where
  run : String → G → Nat × LuaValue × G

/-- The macro `luaL_dostring(L, s)`, that is
`luaL_loadstring(L, s) || lua_pcall(L, 0, LUA_MULTRET, 0)`: runs the chunk and
pushes its result (or the error object); the status is 0 exactly on success. -/
def luaL_dostring {G : Type} (E : LuaEngine G) (L : lua_State G) (s : String) :
    Nat × lua_State G :=
  let r := E.run s L.interp
  (r.1, { interp := r.2.2, stack := r.2.1 :: L.stack, chunks := L.chunks ++ [s] })

/-- Position, in the top-first stack, of the slot an API index denotes:
negative indices count from the top (-1 is the top), positive ones from the
bottom (1 is the first element pushed). -/
def index2adr (stack : List LuaValue) (idx : Int) : Option Nat :=
  if idx < 0 then
    (if (-idx).toNat ≤ stack.length then some ((-idx).toNat - 1) else none)
  else if 0 < idx then
    (if idx.toNat ≤ stack.length then some (stack.length - idx.toNat) else none)
  else none

/-- The value at an API index, if the index is valid. -/
def lua_value {G : Type} (L : lua_State G) (idx : Int) : Option LuaValue :=
  (index2adr L.stack idx).bind fun i => L.stack.get? i

/-- The function `lua_tostring(L, idx)`: for a string the result points to the
string held by the interpreter (all of it; what a reader of the C string sees
is `cstr` of it); a number is rendered and the stack slot itself is turned
into that string; for any other value the result is the null pointer
(`none`). -/
def lua_tostring {G : Type} (L : lua_State G) (idx : Int) : Option String × lua_State G :=
  match lua_value L idx, index2adr L.stack idx with
  | some (LuaValue.string s), _ => (some s, L)
  | some (LuaValue.number f), some i => (some f, { L with stack := L.stack.set i (LuaValue.string f) })
  | _, _ => (none, L)

/-- The function `lua_isboolean(L, idx)`. -/
def lua_isboolean {G : Type} (L : lua_State G) (idx : Int) : Bool :=
  match lua_value L idx with
  | some (LuaValue.boolean _) => true
  | _ => false

/-- The function `lua_toboolean(L, idx)`: false for `false`, `nil` and an
invalid index, true for every other value. -/
def lua_toboolean {G : Type} (L : lua_State G) (idx : Int) : Bool :=
  match lua_value L idx with
  | some (LuaValue.boolean b) => b
  | some LuaValue.nil => false
  | none => false
  | some _ => true

/-! ## Diagnostics -/

/-- Severity of a diagnostic. -/
inductive LogLevel where
  | error
  | info
  deriving DecidableEq, Repr

/-- One diagnostic.  The text is `none` when it is not defined, which happens
when a null character pointer was inserted into the stream. -/
structure LogEntry where
  level : LogLevel
  text : Option String
  deriving DecidableEq, Repr

/-- What a character pointer denotes when it is read as a C string: the
characters before the first zero byte. -/
def cstr (s : String) : String :=
  String.mk (s.data.takeWhile fun c => decide (c ≠ Char.ofNat 0))

/-- The expression `stream << p` for a character pointer `p` that may be the
null pointer: the text so far extended by the C string at `p`, undefined from
a null pointer on. -/
def streamInsert (sofar : Option String) (p : Option String) : Option String :=
  match sofar, p with
  | some a, some c => some (a ++ cstr c)
  | _, _ => none

/-- Modelled from the spec: the logging macro `ERR(x)` (its definition is in a
header that is not part of the sources at hand).  It hands the streamed text
to the logging collaborator at level ERROR and returns to the caller. -/
def ERR (x : Option String) (log : List LogEntry) : List LogEntry :=
  log ++ [{ level := LogLevel.error, text := x }]

/-- Modelled from the spec: the logging macro `INFO(x)` (same header): hands
the text to the logging collaborator at level INFO. -/
def INFO (x : Option String) (log : List LogEntry) : List LogEntry :=
  log ++ [{ level := LogLevel.info, text := x }]

/-! ## The scripting environment -/

/-- Modelled from the spec: `ScriptingEnvironment` (ScriptingEnvironment.h/.cpp
are not part of the sources at hand), a provider of one interpreter instance
per worker index. -/
structure ScriptingEnvironment (G : Type) where
  luaStateVector : Nat → lua_State G

/-- Modelled from the spec: `getLuaStateForThreadID(id)`, the interpreter
instance of worker `id`. -/
def ScriptingEnvironment.getLuaStateForThreadID {G : Type} (se : ScriptingEnvironment G)
    (id : Nat) : lua_State G :=
  se.luaStateVector id

/-- Write-back through the `lua_State*` that `getLuaStateForThreadID` returned:
the instance of worker `id` is replaced, the others are untouched. -/
def ScriptingEnvironment.store {G : Type} (se : ScriptingEnvironment G) (id : Nat)
    (L : lua_State G) : ScriptingEnvironment G :=
  { luaStateVector := fun j => if j = id then L else se.luaStateVector j }

/-! ## BaseParser -/

/-- The data member of `BaseParser`. -/
structure BaseParser where
  use_route_relations : Bool
  deriving DecidableEq, Repr

/-- Modelled from the spec: the read accessor `usesRouteRelations()`
(BaseParser.h is not part of the sources at hand). -/
def BaseParser.usesRouteRelations (self : BaseParser) : Bool :=
  self.use_route_relations

/-- What a member function leaves behind: the object, the interpreter instance
it worked on and the diagnostics emitted so far. -/
structure ReadResult (G : Type) where
  self : BaseParser
  luaState : lua_State G
  log : List LogEntry

/-- The member function `BaseParser::ReadUseRouteRelationSetting(lua_State*)`,
statement by statement. -/
def BaseParser.ReadUseRouteRelationSetting {G : Type} (E : LuaEngine G) (self : BaseParser)
    (luaState : lua_State G) (log : List LogEntry) : ReadResult G :=
  -- if( 0 != luaL_dostring( luaState, "return use_route_relations\n") ) { ERR(...) }
  let ran := luaL_dostring E luaState "return use_route_relations\n"
  let afterErr : lua_State G × List LogEntry :=
    if 0 ≠ ran.1 then
      let msg := lua_tostring ran.2 (-1)
      (msg.2, ERR (streamInsert (streamInsert (some "") msg.1)
        (some " occured in scripting block")) log)
    else
      (ran.2, log)
  -- if( lua_isboolean( luaState, -1) ) { use_route_relations = lua_toboolean(luaState, -1); }
  let self1 : BaseParser :=
    if lua_isboolean afterErr.1 (-1) then
      { self with use_route_relations := lua_toboolean afterErr.1 (-1) }
    else
      self
  -- if( use_route_relations ) { INFO(...) } else { INFO(...) }
  let log1 : List LogEntry :=
    if self1.use_route_relations then
      INFO (some "Using route relations") afterErr.2
    else
      INFO (some "Ignoring route relations") afterErr.2
  { self := self1, luaState := afterErr.1, log := log1 }

/-- What a construction leaves behind: the new object, the scripting
environment and the diagnostics emitted so far. -/
structure Constructed (G : Type) where
  parser : BaseParser
  se : ScriptingEnvironment G
  log : List LogEntry

/-- The constructor `BaseParser::BaseParser(ScriptingEnvironment& se)`: the
member initialiser sets `use_route_relations(false)`, the body reads the
setting from the interpreter of worker 0. -/
def BaseParser.new {G : Type} (E : LuaEngine G) (se : ScriptingEnvironment G)
    (log : List LogEntry) : Constructed G :=
  let self : BaseParser := { use_route_relations := false }
  let r := self.ReadUseRouteRelationSetting E (se.getLuaStateForThreadID 0) log
  { parser := r.self, se := se.store 0 r.luaState, log := r.log }

/-- The execution of the query that a construction on `se` performs: the
status `luaL_dostring` returns and the state of worker 0 right after it. -/
def queryRun {G : Type} (E : LuaEngine G) (se : ScriptingEnvironment G) : Nat × lua_State G :=
  luaL_dostring E (se.getLuaStateForThreadID 0) "return use_route_relations\n"

/-- The diagnostics a step emitted: what the log holds beyond its earlier
contents. -/
def emitted (before after : List LogEntry) : List LogEntry :=
  after.drop before.length

/-- The entries of a given level. -/
def ofLevel (lvl : LogLevel) (l : List LogEntry) : List LogEntry :=
  l.filter fun e => decide (e.level = lvl)

/-! ## Sample interpreters -/

/-- An interpreter without metatables: the globals are an association list,
the query returns the value bound to `use_route_relations` (nil when unbound)
and changes nothing. -/
def plainEngine : LuaEngine (List (String × LuaValue)) where
  run := fun _ g => (0, ((g.lookup "use_route_relations").getD LuaValue.nil), g)

/-- An interpreter whose globals table has an `__index` metamethod that raises
the value held in the interpreter state, as in
`setmetatable(_G, {__index = function() error(obj) end})`: the lookup of the
unbound global fails with that value as the error object. -/
def raisingEngine : LuaEngine LuaValue where
  run := fun _ obj => (1, obj, obj)

/-- An interpreter whose globals table has an `__index` metamethod that binds
a missing global on first access, as in
`setmetatable(_G, {__index = function(t, k) rawset(t, k, true) end})`: the
state is the binding of `use_route_relations`, if any. -/
def bindingEngine : LuaEngine (Option Bool) where
  run := fun _ g =>
    match g with
    | none => (0, LuaValue.nil, some true)
    | some b => (0, LuaValue.boolean b, some b)

/-- A scripting environment whose workers all start from the same interpreter
state, with empty stacks. -/
def uniformEnv {G : Type} (g : G) : ScriptingEnvironment G where
  luaStateVector := fun _ => { interp := g, stack := [], chunks := [] }

/-! ## Auxiliary facts about the embedding -/

theorem index2adr_top (v : LuaValue) (st : List LuaValue) :
    index2adr (v :: st) (-1) = some 0 := by
  simp [index2adr]

theorem lua_value_top {G : Type} (g : G) (v : LuaValue) (st : List LuaValue) (c : List String) :
    lua_value { interp := g, stack := v :: st, chunks := c } (-1) = some v := by
  simp [lua_value, index2adr_top]

theorem lua_value_dostring {G : Type} (E : LuaEngine G) (L : lua_State G) (s : String) :
    lua_value (luaL_dostring E L s).2 (-1) = some (E.run s L.interp).2.1 := by
  simp [luaL_dostring, lua_value_top]

theorem new_flag {G : Type} (E : LuaEngine G) (se : ScriptingEnvironment G)
    (log : List LogEntry) :
    (BaseParser.new E se log).parser.use_route_relations
      = decide ((E.run "return use_route_relations\n" (se.getLuaStateForThreadID 0).interp).2.1
          = LuaValue.boolean true) := by
  rcases hr : E.run "return use_route_relations\n" (se.getLuaStateForThreadID 0).interp
    with ⟨status, v, g⟩
  rcases Nat.eq_zero_or_pos status with rfl | hpos
  · cases v <;>
      simp [BaseParser.new, BaseParser.ReadUseRouteRelationSetting, luaL_dostring, hr,
        lua_isboolean, lua_toboolean, lua_value_top]
  · have hs : ¬ 0 = status := by omega
    cases v <;>
      simp [BaseParser.new, BaseParser.ReadUseRouteRelationSetting, luaL_dostring, hr, hs,
        lua_isboolean, lua_toboolean, lua_tostring, lua_value_top, index2adr_top]

theorem cstr_suffix :
    cstr " occured in scripting block" = " occured in scripting block" := by
  decide

theorem lua_tostring_dostring_text {G : Type} (E : LuaEngine G) (L : lua_State G) (s : String) :
    (lua_tostring (luaL_dostring E L s).2 (-1)).1
      = (match (E.run s L.interp).2.1 with
          | LuaValue.string t => some t
          | LuaValue.number f => some f
          | _ => none) := by
  rcases hr : E.run s L.interp with ⟨status, v, g⟩
  cases v <;> simp [luaL_dostring, hr, lua_tostring, lua_value_top, index2adr_top]

theorem new_log {G : Type} (E : LuaEngine G) (se : ScriptingEnvironment G)
    (log : List LogEntry) :
    (BaseParser.new E se log).log
      = log ++
        ((if 0 ≠ (E.run "return use_route_relations\n" (se.getLuaStateForThreadID 0).interp).1 then
            [{ level := LogLevel.error,
               text := (lua_tostring (luaL_dostring E (se.getLuaStateForThreadID 0)
                  "return use_route_relations\n").2 (-1)).1.map
                    fun t => cstr t ++ " occured in scripting block" }]
          else [])
        ++ [{ level := LogLevel.info,
              text := some (if (BaseParser.new E se log).parser.use_route_relations then
                "Using route relations" else "Ignoring route relations") }]) := by
  rw [new_flag, lua_tostring_dostring_text]
  rcases hr : E.run "return use_route_relations\n" (se.getLuaStateForThreadID 0).interp
    with ⟨status, v, g⟩
  rcases Nat.eq_zero_or_pos status with rfl | hpos
  · cases v <;> (try rename_i b; cases b) <;>
      simp [BaseParser.new, BaseParser.ReadUseRouteRelationSetting, luaL_dostring, hr,
        lua_isboolean, lua_toboolean, lua_value_top, INFO]
  · have hs : ¬ 0 = status := by omega
    cases v <;> (try rename_i b; cases b) <;>
      simp [BaseParser.new, BaseParser.ReadUseRouteRelationSetting, luaL_dostring, hr, hs,
        lua_isboolean, lua_toboolean, lua_tostring, lua_value_top, index2adr_top, INFO, ERR,
        streamInsert, cstr_suffix]

theorem new_other_slots {G : Type} (E : LuaEngine G) (se : ScriptingEnvironment G)
    (log : List LogEntry) (i : Nat) :
    (BaseParser.new E se log).se.getLuaStateForThreadID (i + 1)
      = se.getLuaStateForThreadID (i + 1) := by
  simp [BaseParser.new, ScriptingEnvironment.store, ScriptingEnvironment.getLuaStateForThreadID]

theorem read_luaState_interp {G : Type} (E : LuaEngine G) (self : BaseParser)
    (L : lua_State G) (log : List LogEntry) :
    (self.ReadUseRouteRelationSetting E L log).luaState.interp
      = (E.run "return use_route_relations\n" L.interp).2.2 := by
  rcases hr : E.run "return use_route_relations\n" L.interp with ⟨status, v, g⟩
  rcases Nat.eq_zero_or_pos status with rfl | hpos
  · simp [BaseParser.ReadUseRouteRelationSetting, luaL_dostring, hr]
  · have hs : ¬ 0 = status := by omega
    cases v <;>
      simp [BaseParser.ReadUseRouteRelationSetting, luaL_dostring, hr, hs,
        lua_tostring, lua_value_top, index2adr_top]

theorem read_luaState_chunks {G : Type} (E : LuaEngine G) (self : BaseParser)
    (L : lua_State G) (log : List LogEntry) :
    (self.ReadUseRouteRelationSetting E L log).luaState.chunks
      = L.chunks ++ ["return use_route_relations\n"] := by
  rcases hr : E.run "return use_route_relations\n" L.interp with ⟨status, v, g⟩
  rcases Nat.eq_zero_or_pos status with rfl | hpos
  · simp [BaseParser.ReadUseRouteRelationSetting, luaL_dostring, hr]
  · have hs : ¬ 0 = status := by omega
    cases v <;>
      simp [BaseParser.ReadUseRouteRelationSetting, luaL_dostring, hr, hs,
        lua_tostring, lua_value_top, index2adr_top]

theorem read_luaState_stack_tail {G : Type} (E : LuaEngine G) (self : BaseParser)
    (L : lua_State G) (log : List LogEntry) :
    (self.ReadUseRouteRelationSetting E L log).luaState.stack.tail = L.stack := by
  rcases hr : E.run "return use_route_relations\n" L.interp with ⟨status, v, g⟩
  rcases Nat.eq_zero_or_pos status with rfl | hpos
  · simp [BaseParser.ReadUseRouteRelationSetting, luaL_dostring, hr]
  · have hs : ¬ 0 = status := by omega
    cases v <;>
      simp [BaseParser.ReadUseRouteRelationSetting, luaL_dostring, hr, hs,
        lua_tostring, lua_value_top, index2adr_top]

theorem new_slot0 {G : Type} (E : LuaEngine G) (se : ScriptingEnvironment G)
    (log : List LogEntry) :
    (BaseParser.new E se log).se.getLuaStateForThreadID 0
      = (BaseParser.ReadUseRouteRelationSetting E { use_route_relations := false }
          (se.getLuaStateForThreadID 0) log).luaState := by
  simp [BaseParser.new, ScriptingEnvironment.store, ScriptingEnvironment.getLuaStateForThreadID]

theorem new_slot0_chunks {G : Type} (E : LuaEngine G) (se : ScriptingEnvironment G)
    (log : List LogEntry) :
    ((BaseParser.new E se log).se.getLuaStateForThreadID 0).chunks
      = (se.getLuaStateForThreadID 0).chunks ++ ["return use_route_relations\n"] := by
  rw [new_slot0, read_luaState_chunks]

theorem emitted_append (l m : List LogEntry) : emitted l (l ++ m) = m := by
  simp [emitted]

theorem queryRun_top {G : Type} (E : LuaEngine G) (se : ScriptingEnvironment G) :
    lua_value (queryRun E se).2 (-1)
      = some (E.run "return use_route_relations\n" (se.getLuaStateForThreadID 0).interp).2.1 :=
  lua_value_dostring E _ _

theorem new_log_queryRun {G : Type} (E : LuaEngine G) (se : ScriptingEnvironment G)
    (log : List LogEntry) :
    (BaseParser.new E se log).log
      = log ++
        ((if 0 ≠ (queryRun E se).1 then
            [{ level := LogLevel.error,
               text := (lua_tostring (queryRun E se).2 (-1)).1.map
                    fun t => cstr t ++ " occured in scripting block" }]
          else [])
        ++ [{ level := LogLevel.info,
              text := some (if (BaseParser.new E se log).parser.use_route_relations then
                "Using route relations" else "Ignoring route relations") }]) :=
  new_log E se log

theorem new_flag_queryRun {G : Type} (E : LuaEngine G) (se : ScriptingEnvironment G)
    (log : List LogEntry) (v : LuaValue) (hv : lua_value (queryRun E se).2 (-1) = some v) :
    (BaseParser.new E se log).parser.use_route_relations = decide (v = LuaValue.boolean true) := by
  rw [queryRun_top] at hv
  rw [new_flag, Option.some.inj hv]

/-! ## The setting that is read -/

/-- C1: when running the query on worker slot 0 succeeds (status 0) and the
value it leaves on top of the stack is the boolean `b`, the constructed parser
answers `usesRouteRelations() = b`, no error-level diagnostic is emitted, and
exactly one informational diagnostic is emitted, reading "Using route
relations" for `b = true` and "Ignoring route relations" for `b = false`. -/
theorem C1_boolean_setting_is_adopted {G : Type} (E : LuaEngine G)
    (se : ScriptingEnvironment G) (log : List LogEntry) (b : Bool)
    (hstatus : (queryRun E se).1 = 0)
    (hvalue : lua_value (queryRun E se).2 (-1) = some (LuaValue.boolean b)) :
    (BaseParser.new E se log).parser.usesRouteRelations = b
    ∧ (BaseParser.new E se log).log
        = log ++ [{ level := LogLevel.info,
                    text := some (if b then "Using route relations"
                                  else "Ignoring route relations") }]
    ∧ ofLevel LogLevel.error (emitted log (BaseParser.new E se log).log) = []
    ∧ ofLevel LogLevel.info (emitted log (BaseParser.new E se log).log)
        = [{ level := LogLevel.info,
             text := some (if b then "Using route relations"
                           else "Ignoring route relations") }] := by
  have hflag := new_flag_queryRun E se log _ hvalue
  have hlog := new_log_queryRun E se log
  have hb : (BaseParser.new E se log).parser.use_route_relations = b := by
    rw [hflag]; cases b <;> simp
  rw [hb, hstatus] at hlog
  simp only [ne_eq, not_true_eq_false, if_false, List.nil_append] at hlog
  refine ⟨hb, hlog, ?_, ?_⟩ <;> rw [hlog, emitted_append] <;> simp [ofLevel]

/-- Witness for C1: a profile that sets `use_route_relations = true`. -/
theorem C1_boolean_setting_is_adopted_witness :
    (queryRun plainEngine (uniformEnv [("use_route_relations", LuaValue.boolean true)])).1 = 0
    ∧ (BaseParser.new plainEngine
        (uniformEnv [("use_route_relations", LuaValue.boolean true)]) []).parser.usesRouteRelations
        = true
    ∧ (BaseParser.new plainEngine
        (uniformEnv [("use_route_relations", LuaValue.boolean true)]) []).log
        = [{ level := LogLevel.info, text := some "Using route relations" }] :=
  ⟨by decide,
   (C1_boolean_setting_is_adopted plainEngine
      (uniformEnv [("use_route_relations", LuaValue.boolean true)]) [] true
      (by decide) (by decide)).1,
   (C1_boolean_setting_is_adopted plainEngine
      (uniformEnv [("use_route_relations", LuaValue.boolean true)]) [] true
      (by decide) (by decide)).2.1⟩

/-- C2: when running the query succeeds and the value it leaves is not of
boolean type (nil for an undefined global, a number, a string, or any other
non-boolean value), the constructed parser answers `usesRouteRelations() =
false`, the informational diagnostic "Ignoring route relations" is emitted and
no error-level diagnostic is. -/
theorem C2_non_boolean_setting_defaults {G : Type} (E : LuaEngine G)
    (se : ScriptingEnvironment G) (log : List LogEntry) (v : LuaValue)
    (hstatus : (queryRun E se).1 = 0)
    (hvalue : lua_value (queryRun E se).2 (-1) = some v)
    (hnotbool : ∀ b : Bool, v ≠ LuaValue.boolean b) :
    (BaseParser.new E se log).parser.usesRouteRelations = false
    ∧ (BaseParser.new E se log).log
        = log ++ [{ level := LogLevel.info, text := some "Ignoring route relations" }]
    ∧ ofLevel LogLevel.error (emitted log (BaseParser.new E se log).log) = [] := by
  have hflag := new_flag_queryRun E se log _ hvalue
  have hlog := new_log_queryRun E se log
  have hb : (BaseParser.new E se log).parser.use_route_relations = false := by
    rw [hflag]; simpa using hnotbool true
  rw [hb, hstatus] at hlog
  simp only [ne_eq, not_true_eq_false, if_false, List.nil_append] at hlog
  refine ⟨hb, hlog, ?_⟩
  rw [hlog, emitted_append]; simp [ofLevel]

/-- Witness for C2: a profile that sets `use_route_relations` to the number 1. -/
theorem C2_non_boolean_setting_defaults_witness :
    (queryRun plainEngine (uniformEnv [("use_route_relations", LuaValue.number "1")])).1 = 0
    ∧ (BaseParser.new plainEngine
        (uniformEnv [("use_route_relations", LuaValue.number "1")]) []).parser.usesRouteRelations
        = false
    ∧ (BaseParser.new plainEngine
        (uniformEnv [("use_route_relations", LuaValue.number "1")]) []).log
        = [{ level := LogLevel.info, text := some "Ignoring route relations" }] :=
  ⟨by decide,
   (C2_non_boolean_setting_defaults plainEngine
      (uniformEnv [("use_route_relations", LuaValue.number "1")]) [] (LuaValue.number "1")
      (by decide) (by decide) (by intro b h; cases h)).1,
   (C2_non_boolean_setting_defaults plainEngine
      (uniformEnv [("use_route_relations", LuaValue.number "1")]) [] (LuaValue.number "1")
      (by decide) (by decide) (by intro b h; cases h)).2.1⟩

/-- C3, evaluated where it fails: the lookup of the global raises the boolean
`true` as its error object, so the query fails with a non-zero status; the
unguarded type check then reads the error object as the setting, the parser
answers `usesRouteRelations() = true` and the informational diagnostic reads
"Using route relations". -/
theorem C3_failed_query_boolean_error_object :
    (queryRun raisingEngine (uniformEnv (LuaValue.boolean true))).1 ≠ 0
    ∧ (BaseParser.new raisingEngine (uniformEnv (LuaValue.boolean true)) []).parser.usesRouteRelations
        = true
    ∧ (BaseParser.new raisingEngine (uniformEnv (LuaValue.boolean true)) []).log
        = [{ level := LogLevel.error, text := none },
           { level := LogLevel.info, text := some "Using route relations" }] := by
  decide

/-! ## Diagnostics emitted by one construction -/

/-- C5: on every path one construction emits exactly one informational
diagnostic, it is the last diagnostic emitted, and its text is "Using route
relations" if the resolved flag is true and "Ignoring route relations"
otherwise. -/
theorem C5_one_final_informational_diagnostic {G : Type} (E : LuaEngine G)
    (se : ScriptingEnvironment G) (log : List LogEntry) :
    (BaseParser.new E se log).log = log ++ emitted log (BaseParser.new E se log).log
    ∧ (ofLevel LogLevel.info (emitted log (BaseParser.new E se log).log)).length = 1
    ∧ (emitted log (BaseParser.new E se log).log).getLast?
        = some { level := LogLevel.info,
                 text := some (if (BaseParser.new E se log).parser.usesRouteRelations then
                   "Using route relations" else "Ignoring route relations") }
    ∧ (BaseParser.new E se log).log.getLast?
        = some { level := LogLevel.info,
                 text := some (if (BaseParser.new E se log).parser.usesRouteRelations then
                   "Using route relations" else "Ignoring route relations") } := by
  have hlog := new_log_queryRun E se log
  rw [hlog, emitted_append]
  by_cases hs : (queryRun E se).1 = 0
  · simp [hs, ofLevel, BaseParser.usesRouteRelations]
  · have hs0 : ¬ 0 = (queryRun E se).1 := fun h => hs h.symm
    simp [hs, hs0, ofLevel, BaseParser.usesRouteRelations]

/-! ## Repeated construction and the worker slots -/

/-- C7, as stated, fails: with a globals table whose `__index` metamethod
binds the missing global on first access, the first construction reads nil
(flag false, "Ignoring route relations") and the second, run right after it on
the environment the first one left, reads `true`. -/
theorem C7_second_construction_may_differ :
    ¬ ((BaseParser.new bindingEngine
          (BaseParser.new bindingEngine (uniformEnv none) []).se
          (BaseParser.new bindingEngine (uniformEnv none) []).log).parser.usesRouteRelations
        = (BaseParser.new bindingEngine (uniformEnv none) []).parser.usesRouteRelations
      ∧ emitted (BaseParser.new bindingEngine (uniformEnv none) []).log
          (BaseParser.new bindingEngine
            (BaseParser.new bindingEngine (uniformEnv none) []).se
            (BaseParser.new bindingEngine (uniformEnv none) []).log).log
        = emitted [] (BaseParser.new bindingEngine (uniformEnv none) []).log) := by
  decide

/-- C7, amended: if the first construction leaves the interpreter state of
worker slot 0 as it found it apart from the result stack (the residual result
value being the only change), then a second construction run right after it
yields the same resolved flag and emits the same diagnostics, each sequence
being the error-level entry, if any, followed by the informational one. -/
theorem C7_repeatable_when_interpreter_state_is_kept {G : Type} (E : LuaEngine G)
    (se : ScriptingEnvironment G) (log : List LogEntry)
    (hkept : ((BaseParser.new E se log).se.getLuaStateForThreadID 0).interp
      = (se.getLuaStateForThreadID 0).interp) :
    (BaseParser.new E (BaseParser.new E se log).se (BaseParser.new E se log).log).parser
        = (BaseParser.new E se log).parser
    ∧ emitted (BaseParser.new E se log).log
        (BaseParser.new E (BaseParser.new E se log).se (BaseParser.new E se log).log).log
        = emitted log (BaseParser.new E se log).log
    ∧ emitted log (BaseParser.new E se log).log
        = ofLevel LogLevel.error (emitted log (BaseParser.new E se log).log)
          ++ ofLevel LogLevel.info (emitted log (BaseParser.new E se log).log)
    ∧ ((BaseParser.new E (BaseParser.new E se log).se
          (BaseParser.new E se log).log).se.getLuaStateForThreadID 0).stack.tail
        = ((BaseParser.new E se log).se.getLuaStateForThreadID 0).stack := by
  have hflag1 := new_flag E se log
  have hflag2 := new_flag E (BaseParser.new E se log).se (BaseParser.new E se log).log
  have hlog1 := new_log E se log
  have hlog2 := new_log E (BaseParser.new E se log).se (BaseParser.new E se log).log
  rw [lua_tostring_dostring_text] at hlog1 hlog2
  rw [hkept] at hflag2 hlog2
  rw [← hflag1] at hflag2
  rw [hflag2] at hlog2
  refine ⟨?_, ?_, ?_, ?_⟩
  · cases hp : BaseParser.new E (BaseParser.new E se log).se (BaseParser.new E se log).log
    cases hq : BaseParser.new E se log
    rw [hp, hq] at hflag2
    rename_i p1 _ _ p2 _ _
    cases p1; cases p2
    simpa using hflag2
  · rw [hlog2, emitted_append]
    conv_rhs => rw [hlog1, emitted_append]
  · rw [hlog1, emitted_append]
    by_cases hs :
        (E.run "return use_route_relations\n" (se.getLuaStateForThreadID 0).interp).1 = 0
    · simp [hs, ofLevel]
    · have hs0 : ¬ 0
          = (E.run "return use_route_relations\n" (se.getLuaStateForThreadID 0).interp).1 :=
        fun h => hs h.symm
      simp [hs, hs0, ofLevel]
  · rw [new_slot0 E (BaseParser.new E se log).se, read_luaState_stack_tail]

/-- Witness for C7: an interpreter without metatables, whose query only reads
the globals; the profile sets `use_route_relations = true`. -/
theorem C7_repeatable_when_interpreter_state_is_kept_witness :
    ((BaseParser.new plainEngine (uniformEnv [("use_route_relations", LuaValue.boolean true)])
        []).se.getLuaStateForThreadID 0).interp
      = ((uniformEnv [("use_route_relations", LuaValue.boolean true)]).getLuaStateForThreadID
          0).interp
    ∧ (BaseParser.new plainEngine
        (BaseParser.new plainEngine
          (uniformEnv [("use_route_relations", LuaValue.boolean true)]) []).se
        (BaseParser.new plainEngine
          (uniformEnv [("use_route_relations", LuaValue.boolean true)]) []).log).parser
      = (BaseParser.new plainEngine
          (uniformEnv [("use_route_relations", LuaValue.boolean true)]) []).parser :=
  ⟨by decide,
   (C7_repeatable_when_interpreter_state_is_kept plainEngine
      (uniformEnv [("use_route_relations", LuaValue.boolean true)]) [] (by decide)).1⟩

/-- C8: the setting is read from worker slot 0 only.  Two scripting
environments whose slot-0 interpreter instances are equal give the same
resolved flag and the same diagnostics whatever their other slots hold, the
slot-0 instances they are left with are equal too, and construction leaves
every slot other than 0 (written `i + 1`) as it was. -/
theorem C8_only_slot_zero_is_used {G : Type} (E : LuaEngine G)
    (se1 se2 : ScriptingEnvironment G) (log : List LogEntry)
    (hslot0 : se1.getLuaStateForThreadID 0 = se2.getLuaStateForThreadID 0) :
    (BaseParser.new E se1 log).parser = (BaseParser.new E se2 log).parser
    ∧ (BaseParser.new E se1 log).log = (BaseParser.new E se2 log).log
    ∧ (BaseParser.new E se1 log).se.getLuaStateForThreadID 0
        = (BaseParser.new E se2 log).se.getLuaStateForThreadID 0
    ∧ (∀ i : Nat, (BaseParser.new E se1 log).se.getLuaStateForThreadID (i + 1)
        = se1.getLuaStateForThreadID (i + 1))
    ∧ (∀ i : Nat, (BaseParser.new E se2 log).se.getLuaStateForThreadID (i + 1)
        = se2.getLuaStateForThreadID (i + 1)) := by
  refine ⟨?_, ?_, ?_, new_other_slots E se1 log, new_other_slots E se2 log⟩
  · simp only [BaseParser.new, hslot0]
  · simp only [BaseParser.new, hslot0]
  · rw [new_slot0, new_slot0, hslot0]

/-- Witness for C8: two environments that agree on slot 0 and differ on every
other slot (there the second one holds `use_route_relations = true`). -/
theorem C8_only_slot_zero_is_used_witness :
    (uniformEnv ([] : List (String × LuaValue))).getLuaStateForThreadID 0
      = (ScriptingEnvironment.store
          (uniformEnv [("use_route_relations", LuaValue.boolean true)]) 0
          { interp := [], stack := [], chunks := [] }).getLuaStateForThreadID 0
    ∧ (BaseParser.new plainEngine (uniformEnv []) []).parser
      = (BaseParser.new plainEngine
          (ScriptingEnvironment.store
            (uniformEnv [("use_route_relations", LuaValue.boolean true)]) 0
            { interp := [], stack := [], chunks := [] }) []).parser :=
  ⟨rfl,
   (C8_only_slot_zero_is_used plainEngine (uniformEnv [])
      (ScriptingEnvironment.store
        (uniformEnv [("use_route_relations", LuaValue.boolean true)]) 0
        { interp := [], stack := [], chunks := [] }) [] rfl).1⟩

/-! ## The query -/

/-- C9, as stated, fails: the text handed to the interpreter is not
`return use_route_relations`; the literal in the source ends in a newline. -/
theorem C9_query_text_is_not_the_bare_statement :
    ¬ (((BaseParser.new plainEngine (uniformEnv []) []).se.getLuaStateForThreadID 0).chunks
        = ((uniformEnv ([] : List (String × LuaValue))).getLuaStateForThreadID 0).chunks
          ++ ["return use_route_relations"]) := by
  decide

/-- C9, amended: one construction hands exactly one chunk to the interpreter
of worker slot 0, its source text is `return use_route_relations` followed by
a newline character, and no other worker's interpreter is touched (so nothing
is executed there). -/
theorem C9_exactly_one_query_is_run {G : Type} (E : LuaEngine G)
    (se : ScriptingEnvironment G) (log : List LogEntry) :
    ((BaseParser.new E se log).se.getLuaStateForThreadID 0).chunks
        = (se.getLuaStateForThreadID 0).chunks ++ ["return use_route_relations\n"]
    ∧ (∀ i : Nat, (BaseParser.new E se log).se.getLuaStateForThreadID (i + 1)
        = se.getLuaStateForThreadID (i + 1)) :=
  ⟨new_slot0_chunks E se log, new_other_slots E se log⟩

/-- C10: the resolved flag depends only on the value on top of slot 0's stack
after the query ran, not on the status the query returned:
`usesRouteRelations()` is true if and only if that value is the boolean
`true`.  No hypothesis on the status is made, so this covers a failed query,
where the top value is the error object. -/
theorem C10_flag_is_decided_by_top_value {G : Type} (E : LuaEngine G)
    (se : ScriptingEnvironment G) (log : List LogEntry) :
    (BaseParser.new E se log).parser.usesRouteRelations = true
      ↔ lua_value (queryRun E se).2 (-1) = some (LuaValue.boolean true) := by
  rw [queryRun_top, BaseParser.usesRouteRelations, new_flag]
  simp

end OSRM
